import Mathlib

/-
  Verification development for the Conversation Session Manager of
  src/frontend/src/stores/chat.ts (Pinia store `useChatStore`).

  The store is shallowly embedded: the per-conversation reactive object
  `ChatState` becomes an immutable record, in-place mutations become
  functions returning the updated record, and the asynchronous network
  results (HTTP response, WebSocket handshake, inbound frames) become
  explicit input parameters.  Timestamps (`new Date().toISOString()`)
  are passed in as `now` arguments.  JSON values that the store never
  inspects (tool-call argument values) are modelled as text.
-/

namespace Chat

/- Message role, from the `role` field of `ChatMessage` (chat.ts line 8). -/
inductive Role where
  | user
  | assistant
  | system
deriving DecidableEq, Repr

/- Tool-use record attached to assistant messages (chat.ts lines 11-16).
   `arguments` is a key-value mapping whose values the store never reads. -/
structure ToolUse where
  tool : String
  arguments : List (String × String)
  result : Option String := none
  error : Option String := none
deriving DecidableEq, Repr

/- A transcript entry (interface `ChatMessage`, chat.ts lines 7-17). -/
structure ChatMessage where
  role : Role
  content : String
  timestamp : String
  tool_uses : Option (List ToolUse) := none
deriving DecidableEq, Repr

/- Per-conversation state (interface `ChatState`, chat.ts lines 19-24). -/
structure ChatState where
  messages : List ChatMessage
  isConnected : Bool
  isStreaming : Bool
  error : Option String
deriving DecidableEq, Repr

/- The fresh state installed by `getConversation` / `setActiveResearch`
   (chat.ts lines 35-40). -/
def emptyChatState : ChatState :=
  { messages := [], isConnected := false, isStreaming := false, error := none }

/- A parsed inbound WebSocket frame, discriminated by its `type` field.
   `other` stands for any `type` outside chunk/complete/error/tool_use
   (no branch of the onmessage handler matches it). -/
inductive WsEvent where
  | chunk (content : String)
  | complete
  | error (content : String)
  | tool_use (tool : String) (arguments : List (String × String))
  | other
deriving DecidableEq, Repr

/- The `ws.onmessage` handler (chat.ts lines 139-190) acting on one frame.
   `none` is a payload on which `JSON.parse` throws: the catch block only
   logs, so the state is returned unchanged.  `now` is the arrival time
   used for a freshly created assistant message. -/
def handleWsMessage (conversation : ChatState) (now : String) :
    Option WsEvent → ChatState
  | none => conversation
  | some (WsEvent.chunk content) =>
    if conversation.isStreaming then
      match conversation.messages.getLast? with
      | some lastMsg =>
        if lastMsg.role = Role.assistant then
          { conversation with
              messages := conversation.messages.dropLast ++
                [{ lastMsg with content := lastMsg.content ++ content }] }
        else
          { conversation with
              messages := conversation.messages ++
                [{ role := Role.assistant, content := content, timestamp := now }] }
      | none =>
        { conversation with
            messages := conversation.messages ++
              [{ role := Role.assistant, content := content, timestamp := now }] }
    else
      { conversation with
          isStreaming := true,
          messages := conversation.messages ++
            [{ role := Role.assistant, content := content, timestamp := now }] }
  | some WsEvent.complete =>
    { conversation with isStreaming := false }
  | some (WsEvent.error content) =>
    { conversation with error := some content, isStreaming := false }
  | some (WsEvent.tool_use tool arguments) =>
    match conversation.messages.getLast? with
    | some lastMsg =>
      if lastMsg.role = Role.assistant then
        { conversation with
            messages := conversation.messages.dropLast ++
              [{ lastMsg with
                  tool_uses := some ((lastMsg.tool_uses.getD []) ++
                    [{ tool := tool, arguments := arguments }]) }] }
      else conversation
    | none => conversation
  | some WsEvent.other => conversation

/- The JSON body returned by the POST send endpoint
   (`response.data`, chat.ts lines 98-103). -/
structure SyncResponse where
  content : String
  timestamp : String
  tool_uses : Option (List ToolUse) := none
deriving DecidableEq, Repr

/- Result of the awaited `axios.post` call: success carries the response,
   failure carries `err.response?.data?.detail` when the server sent one. -/
inductive SyncOutcome where
  | success (resp : SyncResponse)
  | failure (detail : Option String)
deriving DecidableEq, Repr

/- `sendMessage` (chat.ts lines 63-109) on one conversation's state.
   Returns the updated state and `true` when the promise resolves,
   `false` when it rejects (the thrown error is re-raised to the caller).
   The user message is pushed before the try block; `error` is cleared
   at the top of the try; a missing token throws before the request is
   attempted, and the catch then stores the generic fallback text. -/
def sendMessage (conversation : ChatState) (message : String) (now : String)
    (token : Option String) (outcome : SyncOutcome) : ChatState × Bool :=
  let conv1 : ChatState := { conversation with
      messages := conversation.messages ++
        [{ role := Role.user, content := message, timestamp := now }] }
  let conv2 : ChatState := { conv1 with error := none }
  match token with
  | none => ({ conv2 with error := some "Failed to send message" }, false)
  | some _ =>
    match outcome with
    | SyncOutcome.success resp =>
      ({ conv2 with
          messages := conv2.messages ++
            [{ role := Role.assistant, content := resp.content,
               timestamp := resp.timestamp, tool_uses := resp.tool_uses }] }, true)
    | SyncOutcome.failure detail =>
      ({ conv2 with error := some (detail.getD "Failed to send message") }, false)

/- The outbound frame transmitted by `sendWebSocketMessage`
   (chat.ts lines 224-229): `{message, history}`. -/
structure SendFrame where
  message : String
  history : List ChatMessage
deriving DecidableEq, Repr

/- Outcome of the WebSocket handshake after `new WebSocket(wsUrl)`:
   either `ws.onopen` or `ws.onerror` fires first. -/
inductive Handshake where
  | opens
  | fails
deriving DecidableEq, Repr

/- How the promise returned by `connectWebSocket` settles. -/
inductive ConnectResult where
  | resolved
  | rejectedAuth
  | rejectedConn
deriving DecidableEq, Repr

/- The store's mutable state (chat.ts lines 28-30): the conversation map
   and the websocket registry.  Sockets are identified by allocation
   number; `closedSockets` records every socket on which `close()` was
   called (its readyState is then no longer OPEN), `nextSocketId` counts
   `new WebSocket(...)` allocations. -/
structure Store where
  conversations : List (String × ChatState)
  activeResearchId : Option String
  websockets : List (String × Nat)
  closedSockets : List Nat
  nextSocketId : Nat
deriving DecidableEq, Repr

/- The map-insertion half of `getConversation` (chat.ts lines 33-43):
   installs an empty state when the key is absent. -/
def ensureConversation (st : Store) (researchId : String) : Store :=
  if (st.conversations.lookup researchId).isSome then st
  else { st with conversations := st.conversations ++ [(researchId, emptyChatState)] }

/- Reading a conversation's state out of the store; total because every
   operation calls `ensureConversation` first (mirroring the `!` in
   `conversations.value.get(researchId)!`). -/
def getConvState (st : Store) (researchId : String) : ChatState :=
  (st.conversations.lookup researchId).getD emptyChatState

/- Writing back a conversation's state (in the source this is in-place
   mutation of the reactive object held in the map). -/
def updateConv (st : Store) (researchId : String) (conv : ChatState) : Store :=
  { st with conversations :=
      st.conversations.map (fun p => if p.1 = researchId then (researchId, conv) else p) }

/- `Map.set` on the websocket registry (replace or append). -/
def setWs (ws : List (String × Nat)) (researchId : String) (wsId : Nat) :
    List (String × Nat) :=
  if (ws.lookup researchId).isSome then
    ws.map (fun p => if p.1 = researchId then (researchId, wsId) else p)
  else ws ++ [(researchId, wsId)]

/- `connectWebSocket` (chat.ts lines 111-205) up to the settling of its
   promise.  The executor runs synchronously: it fetches/creates the
   conversation, CLOSES any existing socket for the key (lines 116-119),
   and only then checks the token (lines 122-126), rejecting when absent.
   With a token, a new socket is allocated and the handshake outcome
   decides between the `onopen` path (set isConnected, clear error,
   register the socket, resolve) and the `onerror` path (record
   "WebSocket connection error", clear isConnected, reject). -/
def connectWebSocket (st : Store) (researchId : String) (token : Option String)
    (hs : Handshake) : Store × ConnectResult :=
  let st1 := ensureConversation st researchId
  let st2 : Store :=
    match st1.websockets.lookup researchId with
    | some existingId => { st1 with closedSockets := st1.closedSockets ++ [existingId] }
    | none => st1
  match token with
  | none => (st2, ConnectResult.rejectedAuth)
  | some _ =>
    let wsId := st2.nextSocketId
    let st3 : Store := { st2 with nextSocketId := wsId + 1 }
    match hs with
    | Handshake.opens =>
      let conv := getConvState st3 researchId
      let st4 := updateConv st3 researchId { conv with isConnected := true, error := none }
      ({ st4 with websockets := setWs st4.websockets researchId wsId },
        ConnectResult.resolved)
    | Handshake.fails =>
      let conv := getConvState st3 researchId
      (updateConv st3 researchId
        { conv with error := some "WebSocket connection error", isConnected := false },
        ConnectResult.rejectedConn)

/- `sendWebSocketMessage` (chat.ts lines 207-230).  Returns the updated
   store and `some frame` when the frame was transmitted; `none` means
   the function threw `Error("WebSocket not connected")` because no
   socket is registered for the key or its readyState is not OPEN.
   Note the conversation is fetched (and created if absent) before the
   check, and that the throwing path touches no conversation field. -/
def sendWebSocketMessage (st : Store) (researchId : String) (message : String)
    (now : String) : Store × Option SendFrame :=
  let st1 := ensureConversation st researchId
  match st1.websockets.lookup researchId with
  | none => (st1, none)
  | some wsId =>
    if wsId ∈ st1.closedSockets then (st1, none)
    else
      let conv := getConvState st1 researchId
      let conv2 : ChatState := { conv with
          messages := conv.messages ++
            [{ role := Role.user, content := message, timestamp := now }] }
      (updateConv st1 researchId conv2,
        some { message := message, history := conv2.messages.dropLast })

/- Heap-level model of the conversation map, refining `Store.conversations`
   with JavaScript object identity: the map sends each key to the address
   of a `ChatState` object, and `getConversation` allocates a fresh object
   only when the key is absent (chat.ts lines 33-43).  This is the level
   at which "same reference, not merely equal values" is expressible. -/
structure ConvHeap where
  convIds : List (String × Nat)
  heap : List (Nat × ChatState)
  nextId : Nat
deriving DecidableEq, Repr

/- `getConversation` on the heap model: insert `{messages: [], ...}` at a
   fresh address when absent, then return `conversations.get(researchId)!`
   (the address, i.e. the reference handed to the caller). -/
def getConversation (st : ConvHeap) (researchId : String) : Option Nat × ConvHeap :=
  let st1 : ConvHeap :=
    if (st.convIds.lookup researchId).isSome then st
    else
      { convIds := st.convIds ++ [(researchId, st.nextId)],
        heap := st.heap ++ [(st.nextId, emptyChatState)],
        nextId := st.nextId + 1 }
  (st1.convIds.lookup researchId, st1)

/- Association-list bookkeeping used by the store-level proofs. -/

lemma lookup_append_self {α : Type} (l : List (String × α)) (a : String) (x : α)
    (h : l.lookup a = none) : (l ++ [(a, x)]).lookup a = some x := by
  induction l with
  | nil => simp [List.lookup]
  | cons p t ih =>
    by_cases hp : a = p.1
    · simp [List.lookup, hp] at h
    · simp only [List.cons_append, List.lookup, beq_eq_false_iff_ne.mpr hp] at h ⊢
      exact ih h

lemma lookup_update {α : Type} (l : List (String × α)) (a : String) (x : α)
    (h : (l.lookup a).isSome) :
    (l.map fun p => if p.1 = a then (a, x) else p).lookup a = some x := by
  induction l with
  | nil => simp [List.lookup] at h
  | cons p t ih =>
    rw [List.map_cons]
    by_cases hp : p.1 = a
    · rw [if_pos hp]
      simp [List.lookup]
    · rw [if_neg hp]
      have ha : (a == p.1) = false := beq_eq_false_iff_ne.mpr (fun hh => hp hh.symm)
      simp only [List.lookup, ha] at h ⊢
      exact ih h

lemma lookup_none_not_mem_keys {α : Type} (l : List (String × α)) (a : String)
    (h : l.lookup a = none) : a ∉ l.map Prod.fst := by
  induction l with
  | nil => simp
  | cons p t ih =>
    by_cases hp : a = p.1
    · simp [List.lookup, hp] at h
    · simp only [List.lookup, beq_eq_false_iff_ne.mpr hp] at h
      simp only [List.map_cons, List.mem_cons]
      exact fun hc => hc.elim (fun hh => hp hh) (ih h)

lemma ensure_websockets (st : Store) (researchId : String) :
    (ensureConversation st researchId).websockets = st.websockets := by
  unfold ensureConversation; split <;> rfl

lemma ensure_closedSockets (st : Store) (researchId : String) :
    (ensureConversation st researchId).closedSockets = st.closedSockets := by
  unfold ensureConversation; split <;> rfl

lemma ensure_nextSocketId (st : Store) (researchId : String) :
    (ensureConversation st researchId).nextSocketId = st.nextSocketId := by
  unfold ensureConversation; split <;> rfl

lemma ensure_lookup_isSome (st : Store) (researchId : String) :
    ((ensureConversation st researchId).conversations.lookup researchId).isSome := by
  unfold ensureConversation
  split
  · assumption
  · rename_i h
    rw [lookup_append_self]
    · rfl
    · exact Option.not_isSome_iff_eq_none.mp h

lemma getConvState_updateConv (st : Store) (researchId : String) (conv : ChatState)
    (h : (st.conversations.lookup researchId).isSome) :
    getConvState (updateConv st researchId conv) researchId = conv := by
  unfold getConvState updateConv
  simp only [lookup_update st.conversations researchId conv h, Option.getD_some]

/-- Claim C1: on an open stream starting with `isStreaming` false, the event
sequence chunk("Hel"), chunk("lo"), complete appends exactly one new assistant
message with content "Hello" (timestamped at the first chunk's arrival) to the
transcript, leaves `isStreaming` false and the error field untouched, and the
`complete` event itself does not change the message list. -/
theorem chunk_chunk_complete_builds_hello
    (msgs : List ChatMessage) (conn : Bool) (err : Option String)
    (t1 t2 t3 : String) :
    handleWsMessage
        (handleWsMessage
          (handleWsMessage ⟨msgs, conn, false, err⟩ t1 (some (WsEvent.chunk "Hel")))
          t2 (some (WsEvent.chunk "lo")))
        t3 (some WsEvent.complete)
      = ⟨msgs ++ [⟨Role.assistant, "Hello", t1, none⟩], conn, false, err⟩
    ∧ (handleWsMessage
        (handleWsMessage
          (handleWsMessage ⟨msgs, conn, false, err⟩ t1 (some (WsEvent.chunk "Hel")))
          t2 (some (WsEvent.chunk "lo")))
        t3 (some WsEvent.complete)).messages
      = (handleWsMessage
          (handleWsMessage ⟨msgs, conn, false, err⟩ t1 (some (WsEvent.chunk "Hel")))
          t2 (some (WsEvent.chunk "lo"))).messages := by
  constructor <;>
    simp [handleWsMessage, List.getLast?_concat, List.dropLast_concat]

/-- Claim C8: an inbound frame whose `type` is outside
chunk/complete/error/tool_use, and a frame whose payload fails to parse,
leave the conversation state exactly as it was: no mutation, no error
surfaced, no exception (the handler is total). -/
theorem malformed_frames_are_ignored (conv : ChatState) (now : String) :
    handleWsMessage conv now none = conv
    ∧ handleWsMessage conv now (some WsEvent.other) = conv :=
  ⟨rfl, rfl⟩

/- A reachable state with `isStreaming = true` whose last transcript entry is
   a user message (e.g. after `sendWebSocketMessage` was called mid-stream). -/
def streamingAfterUserMsg : ChatState :=
  { messages := [{ role := Role.user, content := "u", timestamp := "t0" }],
    isConnected := true, isStreaming := true, error := none }

/-- Claim C5 counterexample: with `isStreaming` already true but a user
message last in the transcript, a chunk event does NOT append its text to the
last message — it creates a brand-new assistant message, growing the
transcript from one entry to two and leaving the user message unchanged. -/
theorem chunk_while_streaming_claim_false :
    streamingAfterUserMsg.isStreaming = true
    ∧ (handleWsMessage streamingAfterUserMsg "t1"
        (some (WsEvent.chunk "x"))).messages
      = [{ role := Role.user, content := "u", timestamp := "t0" },
         { role := Role.assistant, content := "x", timestamp := "t1" }]
    ∧ streamingAfterUserMsg.messages.length = 1 :=
  ⟨rfl, rfl, rfl⟩

/-- Claim C5 (amended): while `isStreaming` is true, a chunk's text is
appended to the last message and no new message is created ONLY when the last
message exists and has the assistant role; when the last message is not an
assistant message, or the transcript is empty, a new assistant message holding
the fragment is appended instead. -/
theorem chunk_while_streaming_appends_to_last
    (msgs : List ChatMessage) (conn : Bool) (err : Option String)
    (c ts now s : String) (tu : Option (List ToolUse)) :
    handleWsMessage ⟨msgs ++ [⟨Role.assistant, c, ts, tu⟩], conn, true, err⟩ now
        (some (WsEvent.chunk s))
      = ⟨msgs ++ [⟨Role.assistant, c ++ s, ts, tu⟩], conn, true, err⟩
    ∧ handleWsMessage ⟨msgs ++ [⟨Role.user, c, ts, tu⟩], conn, true, err⟩ now
        (some (WsEvent.chunk s))
      = ⟨msgs ++ [⟨Role.user, c, ts, tu⟩, ⟨Role.assistant, s, now, none⟩], conn, true, err⟩
    ∧ handleWsMessage ⟨[], conn, true, err⟩ now (some (WsEvent.chunk s))
      = ⟨[⟨Role.assistant, s, now, none⟩], conn, true, err⟩ := by
  refine ⟨?_, ?_, ?_⟩ <;>
    simp [handleWsMessage, List.getLast?_concat, List.dropLast_concat]

/-- Claim C6: on a stream with no assistant turn in progress, delivering
chunk("A") then error("boom") leaves the partially-built assistant message
with content "A" in the transcript unchanged, sets the conversation's error
field to "boom", and sets `isStreaming` to false. -/
theorem chunk_then_error_keeps_partial_message
    (msgs : List ChatMessage) (conn : Bool) (err : Option String)
    (t1 t2 : String) :
    handleWsMessage
        (handleWsMessage ⟨msgs, conn, false, err⟩ t1 (some (WsEvent.chunk "A")))
        t2 (some (WsEvent.error "boom"))
      = ⟨msgs ++ [⟨Role.assistant, "A", t1, none⟩], conn, false, some "boom"⟩ := by
  simp [handleWsMessage]

/-- Claim C2: when `sendMessage` succeeds (token present, request resolves),
the conversation's message list grows by exactly two entries — a user message
with the sent text followed by an assistant message carrying the
server-provided content, timestamp and tool uses — and nothing else changes
except the error field being cleared; the promise resolves. -/
theorem sendMessage_success_appends_user_then_assistant
    (conv : ChatState) (message now tok : String) (resp : SyncResponse) :
    sendMessage conv message now (some tok) (SyncOutcome.success resp)
      = ({ conv with
            messages := conv.messages ++
              [⟨Role.user, message, now, none⟩,
               ⟨Role.assistant, resp.content, resp.timestamp, resp.tool_uses⟩],
            error := none }, true) := by
  simp [sendMessage]

/-- Claim C10: calling `sendMessage` with no credential still appends the
user message first (the push precedes the token check), so the rejected call
leaves the transcript exactly one entry longer and stores the generic
fallback "Failed to send message" on the error field — no rollback. -/
theorem sendMessage_no_token_keeps_user_message
    (conv : ChatState) (message now : String) (outcome : SyncOutcome) :
    sendMessage conv message now none outcome
      = ({ conv with
            messages := conv.messages ++ [⟨Role.user, message, now, none⟩],
            error := some "Failed to send message" }, false) := by
  simp [sendMessage]

/- With no token, `connectWebSocket` runs exactly the prefix of its executor:
   ensure the conversation, close any registered socket, reject. -/
lemma connectWebSocket_no_token (st : Store) (researchId : String) (hs : Handshake) :
    connectWebSocket st researchId none hs
      = (match (ensureConversation st researchId).websockets.lookup researchId with
         | some existingId =>
             { ensureConversation st researchId with
                 closedSockets :=
                   (ensureConversation st researchId).closedSockets ++ [existingId] }
         | none => ensureConversation st researchId,
         ConnectResult.rejectedAuth) := rfl

/- With no socket registered for the key, `sendWebSocketMessage` throws
   right after ensuring the conversation exists. -/
lemma sendWebSocketMessage_no_socket (st : Store) (researchId message now : String)
    (h : st.websockets.lookup researchId = none) :
    sendWebSocketMessage st researchId message now
      = (ensureConversation st researchId, none) := by
  unfold sendWebSocketMessage
  simp only [ensure_websockets, h]

/- With an OPEN socket registered for the key, `sendWebSocketMessage` pushes
   the user message and transmits the prior transcript as history. -/
lemma sendWebSocketMessage_open (st : Store) (researchId message now : String)
    (wsId : Nat) (h1 : st.websockets.lookup researchId = some wsId)
    (h2 : wsId ∉ st.closedSockets) :
    sendWebSocketMessage st researchId message now
      = (updateConv (ensureConversation st researchId) researchId
           { getConvState (ensureConversation st researchId) researchId with
               messages :=
                 (getConvState (ensureConversation st researchId) researchId).messages
                   ++ [⟨Role.user, message, now, none⟩] },
         some { message := message,
                history :=
                  (getConvState (ensureConversation st researchId) researchId).messages }) := by
  unfold sendWebSocketMessage
  simp only [ensure_websockets, ensure_closedSockets, h1]
  rw [if_neg h2]
  simp [List.dropLast_concat]

/- A failed handshake records the connection error on the conversation. -/
lemma connectWebSocket_fails_error (st : Store) (researchId tok : String)
    (h : st.websockets.lookup researchId = none) :
    (getConvState
        (connectWebSocket st researchId (some tok) Handshake.fails).1 researchId).error
      = some "WebSocket connection error" := by
  unfold connectWebSocket
  simp only [ensure_websockets, h]
  rw [getConvState_updateConv]
  exact ensure_lookup_isSome st researchId

/- The auth-rejected path leaves the conversation map exactly as
   `ensureConversation` left it. -/
lemma connectWebSocket_no_token_store (st : Store) (researchId : String)
    (hs : Handshake) (h : st.websockets.lookup researchId = none) :
    (connectWebSocket st researchId none hs).1 = ensureConversation st researchId := by
  rw [connectWebSocket_no_token]
  simp only [ensure_websockets, h]

/- A state in which research item "r" has an open stream registered as
   socket number 0. -/
def storeWithOpenStream : Store :=
  { conversations := [("r", emptyChatState)], activeResearchId := none,
    websockets := [("r", 0)], closedSockets := [], nextSocketId := 1 }

/-- Claim C3 counterexample: with no credential, `connectWebSocket` does
reject without allocating a new socket, but it does NOT leave an existing
connection untouched — the close of the previously registered socket happens
BEFORE the credential check, so after the rejected call the existing socket 0
has been closed. -/
theorem openStream_no_token_closes_existing :
    (connectWebSocket storeWithOpenStream "r" none Handshake.opens).2
      = ConnectResult.rejectedAuth
    ∧ storeWithOpenStream.closedSockets = []
    ∧ (connectWebSocket storeWithOpenStream "r" none Handshake.opens).1.closedSockets
      = [0] :=
  ⟨rfl, rfl, rfl⟩

/-- Claim C3 (amended): with no credential present, `connectWebSocket`
rejects with the authentication error without opening a new streaming
connection (no socket allocated, registry unchanged); however, because the
close of any existing connection precedes the credential check, a socket
already registered for the key is closed even though the call fails. -/
theorem openStream_no_token_rejects_after_closing
    (st : Store) (researchId : String) (hs : Handshake) :
    (connectWebSocket st researchId none hs).2 = ConnectResult.rejectedAuth
    ∧ (connectWebSocket st researchId none hs).1.nextSocketId = st.nextSocketId
    ∧ (connectWebSocket st researchId none hs).1.websockets = st.websockets
    ∧ (connectWebSocket st researchId none hs).1.closedSockets
      = st.closedSockets ++ (st.websockets.lookup researchId).elim [] (fun i => [i]) := by
  rw [connectWebSocket_no_token]
  rcases h : st.websockets.lookup researchId with _ | i <;>
    simp [ensure_websockets, h, ensure_websockets st researchId ▸ h,
      ensure_closedSockets, ensure_nextSocketId]

/- A state in which research item "r" exists (error field clear) but no
   streaming connection is registered. -/
def storeNoSocket : Store :=
  { conversations := [("r", emptyChatState)], activeResearchId := none,
    websockets := [], closedSockets := [], nextSocketId := 0 }

/-- Claim C4 counterexample: `sendWebSocketMessage` on a key with no open
connection raises the failure (no frame is sent) yet leaves the
conversation's error field untouched (still `none`) — the StateError is NOT
recorded on the error field, contradicting the claim. -/
theorem streaming_send_error_not_recorded :
    (sendWebSocketMessage storeNoSocket "r" "hi" "t").2 = none
    ∧ (getConvState (sendWebSocketMessage storeNoSocket "r" "hi" "t").1 "r").error
      = none :=
  ⟨rfl, rfl⟩

/-- Claim C4 (amended): failures of `sendMessage` (server-reported detail,
generic fallback, and the missing-credential case) are recorded on the
conversation's error field, and a failed stream handshake records
"WebSocket connection error"; but `sendWebSocketMessage` with no open
connection raises without recording anything on the error field, and
`connectWebSocket` with no credential likewise rejects leaving the error
field as it was. -/
theorem errors_recorded_except_state_and_stream_auth
    (conv : ChatState) (message now tok : String) (detail : Option String)
    (convs : List (String × ChatState)) (act : Option String)
    (closed : List Nat) (nid : Nat) (researchId : String) :
    ((sendMessage conv message now (some tok) (SyncOutcome.failure detail)).1).error
      = some (detail.getD "Failed to send message")
    ∧ ((sendMessage conv message now none (SyncOutcome.failure detail)).1).error
      = some "Failed to send message"
    ∧ (getConvState
        (connectWebSocket ⟨convs, act, [], closed, nid⟩ researchId (some tok)
          Handshake.fails).1 researchId).error
      = some "WebSocket connection error"
    ∧ (sendWebSocketMessage ⟨convs, act, [], closed, nid⟩ researchId message now).2
      = none
    ∧ getConvState
        (sendWebSocketMessage ⟨convs, act, [], closed, nid⟩ researchId message now).1
        researchId
      = getConvState (ensureConversation ⟨convs, act, [], closed, nid⟩ researchId)
          researchId
    ∧ (connectWebSocket ⟨convs, act, [], closed, nid⟩ researchId none Handshake.opens).2
      = ConnectResult.rejectedAuth
    ∧ getConvState
        (connectWebSocket ⟨convs, act, [], closed, nid⟩ researchId none
          Handshake.opens).1 researchId
      = getConvState (ensureConversation ⟨convs, act, [], closed, nid⟩ researchId)
          researchId := by
  refine ⟨by simp [sendMessage], by simp [sendMessage], ?_, ?_, ?_, ?_, ?_⟩
  · exact connectWebSocket_fails_error ⟨convs, act, [], closed, nid⟩ researchId tok rfl
  · rw [sendWebSocketMessage_no_socket ⟨convs, act, [], closed, nid⟩
      researchId message now rfl]
  · rw [sendWebSocketMessage_no_socket ⟨convs, act, [], closed, nid⟩
      researchId message now rfl]
  · rw [connectWebSocket_no_token]
  · rw [connectWebSocket_no_token_store ⟨convs, act, [], closed, nid⟩
      researchId Handshake.opens rfl]

/-- Claim C7: with an OPEN connection registered for the key,
`sendWebSocketMessage` appends a user message timestamped at call time to the
transcript and transmits the frame `{message, history}` whose history is the
transcript exactly as it stood before this call — the just-appended user
message is excluded. -/
theorem streaming_send_history_is_prior_transcript
    (convs : List (String × ChatState)) (act : Option String)
    (wsId nid : Nat) (researchId message now : String) :
    (sendWebSocketMessage ⟨convs, act, [(researchId, wsId)], [], nid⟩
        researchId message now).2
      = some { message := message,
               history := (getConvState
                 (ensureConversation ⟨convs, act, [(researchId, wsId)], [], nid⟩
                   researchId) researchId).messages }
    ∧ getConvState
        (sendWebSocketMessage ⟨convs, act, [(researchId, wsId)], [], nid⟩
          researchId message now).1 researchId
      = { getConvState
            (ensureConversation ⟨convs, act, [(researchId, wsId)], [], nid⟩
              researchId) researchId with
          messages := (getConvState
            (ensureConversation ⟨convs, act, [(researchId, wsId)], [], nid⟩
              researchId) researchId).messages
            ++ [⟨Role.user, message, now, none⟩] } := by
  have h1 : (Store.mk convs act [(researchId, wsId)] [] nid).websockets.lookup
      researchId = some wsId := by
    simp [List.lookup]
  rw [sendWebSocketMessage_open _ _ _ _ wsId h1 (by simp)]
  refine ⟨rfl, ?_⟩
  rw [getConvState_updateConv]
  exact ensure_lookup_isSome _ _

/-- Claim C9: `getConversation` called twice with the same key hands back the
identical heap reference (the very object installed or found by the first
call) and the second call does not change the store at all; the returned
reference is always present; and a conversation map binding every key at most
once still does so afterwards — no duplicate state per key is created. -/
theorem getConversation_returns_same_reference
    (st : ConvHeap) (researchId : String)
    (h : (st.convIds.map Prod.fst).Nodup) :
    getConversation (getConversation st researchId).2 researchId
      = ((getConversation st researchId).1, (getConversation st researchId).2)
    ∧ ((getConversation st researchId).1).isSome
    ∧ ((getConversation st researchId).2.convIds.map Prod.fst).Nodup := by
  rcases hc : st.convIds.lookup researchId with _ | i
  · have hs := lookup_append_self st.convIds researchId st.nextId hc
    have hnm := lookup_none_not_mem_keys st.convIds researchId hc
    refine ⟨?_, ?_, ?_⟩
    · simp [getConversation, hc, hs]
    · simp [getConversation, hc, hs]
    · simp [getConversation, hc, List.nodup_append, h, hnm]
  · refine ⟨?_, ?_, ?_⟩ <;> simp [getConversation, hc, h]

/-- Claim C9 witness: on the empty store (duplicate-free by construction) and
key "r", the double call returns the same reference and preserves key
uniqueness. -/
theorem getConversation_returns_same_reference_witness :
    ((ConvHeap.mk [] [] 0).convIds.map Prod.fst).Nodup
    ∧ (getConversation (getConversation ⟨[], [], 0⟩ "r").2 "r"
        = ((getConversation (⟨[], [], 0⟩ : ConvHeap) "r").1,
           (getConversation (⟨[], [], 0⟩ : ConvHeap) "r").2)
      ∧ ((getConversation (⟨[], [], 0⟩ : ConvHeap) "r").1).isSome
      ∧ ((getConversation (⟨[], [], 0⟩ : ConvHeap) "r").2.convIds.map
          Prod.fst).Nodup) :=
  ⟨by simp, getConversation_returns_same_reference ⟨[], [], 0⟩ "r" (by simp)⟩

end Chat
